import Mathlib

/-!
Shallow embedding of the Chatbot repository's browser front-end
(src/voice-call.js and src/add_data.js).

The voice-call system (class VoiceCallSystem) is a single-threaded,
event-driven state machine.  We embed its instance fields as a Lean
structure `VCState`, and each method as a pure function
`VCState → ... → VCState × List Effect`, where the `Effect` list records
the calls the method makes into the browser / collaborator APIs
(console logging, DOM class toggles, media-track stop, Web Audio close,
speech-recognition start/stop, speech-synthesis cancel/speak,
timer management, and WebSocket emits), in source order.

DOM-only details that no verified property depends on (CSS class names,
icon swaps, scroll animation, the visualizer's canvas drawing) are
represented only as effects or omitted; floating-point voice settings
(rate, pitch) are omitted because the claims do not touch them.
-/

/-- JS whitespace for String.prototype.trim (ASCII subset actually used). -/
def isWS (c : Char) : Bool :=
  c = ' ' || c = '\t' || c = '\n' || c = '\r' || c = '\x0b' || c = '\x0c'

/-- Model of JS String.prototype.trim: drop whitespace at both ends. -/
def jsTrim (s : String) : String :=
  String.mk (((s.toList.dropWhile isWS).reverse.dropWhile isWS).reverse)

/-- Model of JS String length (code units; all thresholds in the code are ASCII). -/
def jsLength (s : String) : Nat := s.toList.length

/-- One audio track of the microphone MediaStream. -/
structure Track where
  id : Nat
  enabled : Bool
deriving Repr, DecidableEq

/-- One entry of VoiceCallSystem.messageHistory: \x7brole, text\x7d
(the wall-clock time field is omitted). -/
structure Message where
  role : String
  text : String
deriving Repr, DecidableEq

/-- Voice settings (rate and pitch are floating point and unused by the
verified properties, so only autoSpeak and language are modelled). -/
structure VoiceSettings where
  autoSpeak : Bool
  language : String
deriving Repr, DecidableEq

/-- Calls made by VoiceCallSystem methods into browser / collaborator APIs,
recorded in source order. -/
inductive Effect where
  | log (msg : String)
  | showModal (name : String)
  | hideModal (name : String)
  | requestMicPermission
  | updateMicStatus (msg : String) (ok : Bool)
  | updateRAGStatus (msg : String) (ok : Bool)
  | updateStatus (msg : String) (state : String)
  | stopTrack (id : Nat)
  | closeAudioContext
  | cancelAnimationFrame
  | stopRecognition
  | startRecognition
  | scheduleRecognitionRestart (delayMs : Nat)
  | cancelSynthesis
  | speakUtterance (text : String)
  | scheduleSpeak (text : String) (delayMs : Nat)
  | clearTimerInterval
  | scheduleRetryStartCall (delayMs : Nat)
  | emitVoiceInput (text : String)
  | showRecordingUI
  | hideRecordingUI
deriving Repr, DecidableEq

/-- The mutable instance fields of class VoiceCallSystem. -/
structure VCState where
  /-- this.socket is non-null (initializeSocket succeeded). -/
  socketPresent : Bool
  /-- this.isConnected -/
  isConnected : Bool
  /-- this.mediaStream: none = null, some ts = a stream with tracks ts. -/
  mediaStream : Option (List Track)
  /-- this.audioContext is non-null and not closed. -/
  audioContextOpen : Bool
  /-- this.visualizerAnimationId is a truthy id. -/
  visualizerAnimationId : Bool
  /-- this.visualizerCanvas is present in the DOM. -/
  canvasPresent : Bool
  /-- this.recognition is non-null (SpeechRecognition supported). -/
  recognitionAvailable : Bool
  /-- this.isRecognizing -/
  isRecognizing : Bool
  /-- speechSynthesis exists in window. -/
  ttsSupported : Bool
  /-- Utterances currently queued in the speechSynthesis collaborator;
  synthesis.cancel() empties it, synthesis.speak(u) appends u. -/
  synthQueue : List String
  /-- this.currentUtterance -/
  currentUtterance : Option String
  /-- this.isCallActive -/
  isCallActive : Bool
  /-- this.isMuted -/
  isMuted : Bool
  /-- this.isOnHold -/
  isOnHold : Bool
  /-- this.isRecording -/
  isRecording : Bool
  /-- this.callStartTime (none = null; JS milliseconds since epoch). -/
  callStartTime : Option Int
  /-- this.timerInterval holds a live interval id (startTimer ran and the
  interval has not been cleared). -/
  timerInterval : Bool
  /-- the callTimer element's textContent. -/
  callTimerText : String
  /-- this.messageHistory -/
  messageHistory : List Message
  /-- this.voiceSettings -/
  voiceSettings : VoiceSettings
deriving Repr, DecidableEq

/-- VoiceCallSystem.addMessage(role, text): renders a bubble and pushes
\x7brole, text, time\x7d onto messageHistory (DOM rendering kept as the
history append; the scroll animation is omitted). -/
def addMessage (s : VCState) (role : String) (text : String) : VCState :=
  { s with messageHistory := s.messageHistory ++ [⟨role, text⟩] }

/-- VoiceCallSystem.endCall (src/voice-call.js lines 460-513), in source
order: clear isCallActive; stop every media track and null the stream;
close the audio context; cancel the visualizer animation frame; stop
recognition if running; cancel synthesis; clear the timer interval; reset
the conversation pane, timer text and messageHistory; reset isMuted and
isOnHold; update status displays. -/
def endCall (s : VCState) : VCState × List Effect :=
  let e0 : List Effect := [Effect.log ("📞 Ending call...")]
  let s1 := { s with isCallActive := false }
  let p2 : VCState × List Effect :=
    match s1.mediaStream with
    | some ts => ({ s1 with mediaStream := none }, ts.map (fun t => Effect.stopTrack t.id))
    | none => (s1, [])
  let s2 := p2.1
  let p3 : VCState × List Effect :=
    if s2.audioContextOpen then
      ({ s2 with audioContextOpen := false }, [Effect.closeAudioContext])
    else (s2, [])
  let s3 := p3.1
  let e4 : List Effect := if s3.visualizerAnimationId then [Effect.cancelAnimationFrame] else []
  let e5 : List Effect :=
    if s3.recognitionAvailable && s3.isRecognizing then [Effect.stopRecognition] else []
  let s6 := { s3 with synthQueue := [] }
  let e6 : List Effect := [Effect.cancelSynthesis]
  let e7 : List Effect := if s6.timerInterval then [Effect.clearTimerInterval] else []
  let s8 := { s6 with callTimerText := "00:00", messageHistory := [],
                      isMuted := false, isOnHold := false }
  (s8, e0 ++ p2.2 ++ p3.2 ++ e4 ++ e5 ++ e6 ++ e7 ++
       [Effect.updateStatus ("Call ended") ("inactive"),
        Effect.updateMicStatus ("Not connected") false,
        Effect.log ("✅ Call ended")])

/-- An idle baseline state (fields as set by the constructor after a
successful init, before any call). -/
def idleState : VCState :=
  { socketPresent := true
    isConnected := false
    mediaStream := none
    audioContextOpen := false
    visualizerAnimationId := false
    canvasPresent := true
    recognitionAvailable := true
    isRecognizing := false
    ttsSupported := true
    synthQueue := []
    currentUtterance := none
    isCallActive := false
    isMuted := false
    isOnHold := false
    isRecording := false
    callStartTime := none
    timerInterval := false
    callTimerText := "00:00"
    messageHistory := []
    voiceSettings := { autoSpeak := true, language := "en-US" } }

/-- C1: from any state with an active call (any combination of muted, on
hold, recording, any message history and timer state), endCall returns the
system to idle: the call-active flag drops, every media track receives a
stop call and the stream handle is nulled, the audio context is closed,
speech synthesis is cancelled (the synthesis queue empties), the timer
interval is cleared, the message history becomes empty, and the muted and
held flags are reset to false. -/
theorem c1_endCall_resets (s : VCState) (h : s.isCallActive = true) :
    (endCall s).1.isCallActive = false
    ∧ (endCall s).1.mediaStream = none
    ∧ (∀ ts, s.mediaStream = some ts → ∀ t ∈ ts, Effect.stopTrack t.id ∈ (endCall s).2)
    ∧ (endCall s).1.audioContextOpen = false
    ∧ (s.audioContextOpen = true → Effect.closeAudioContext ∈ (endCall s).2)
    ∧ Effect.cancelSynthesis ∈ (endCall s).2
    ∧ (endCall s).1.synthQueue = []
    ∧ (s.timerInterval = true → Effect.clearTimerInterval ∈ (endCall s).2)
    ∧ (endCall s).1.messageHistory = []
    ∧ (endCall s).1.isMuted = false
    ∧ (endCall s).1.isOnHold = false := by
  obtain ⟨sock, conn, ms, ac, viz, canv, recAvail, recing, tts, q, cu, act, mu, hold,
    recg, cst, ti, ctt, hist, vs⟩ := s
  refine ⟨?_, ?_, ?_, ?_, ?_, ?_, ?_, ?_, ?_, ?_, ?_⟩ <;>
    cases ms <;> cases ac <;> cases ti <;>
      simp_all [endCall, List.mem_append, List.mem_map]
  all_goals exact fun t ht => ⟨t, ht, rfl⟩

/-- Witness for C1: a concrete active call state (muted, on hold, with a
one-track stream, open audio context, running timer and a message). -/
def activeCallState : VCState :=
  { idleState with
      isConnected := true
      mediaStream := some [⟨1, true⟩]
      audioContextOpen := true
      isCallActive := true
      isMuted := true
      isOnHold := true
      callStartTime := some 1000
      timerInterval := true
      messageHistory := [⟨"assistant", "hi"⟩] }

theorem c1_endCall_resets_witness :
    (endCall activeCallState).1.isCallActive = false
    ∧ (endCall activeCallState).1.mediaStream = none
    ∧ (∀ ts, activeCallState.mediaStream = some ts →
        ∀ t ∈ ts, Effect.stopTrack t.id ∈ (endCall activeCallState).2)
    ∧ (endCall activeCallState).1.audioContextOpen = false
    ∧ (activeCallState.audioContextOpen = true →
        Effect.closeAudioContext ∈ (endCall activeCallState).2)
    ∧ Effect.cancelSynthesis ∈ (endCall activeCallState).2
    ∧ (endCall activeCallState).1.synthQueue = []
    ∧ (activeCallState.timerInterval = true →
        Effect.clearTimerInterval ∈ (endCall activeCallState).2)
    ∧ (endCall activeCallState).1.messageHistory = []
    ∧ (endCall activeCallState).1.isMuted = false
    ∧ (endCall activeCallState).1.isOnHold = false :=
  c1_endCall_resets activeCallState (by decide)

/-- Message shown by requestMicrophonePermission when getUserMedia rejects. -/
def micDeniedMsg : String :=
  "I need microphone access to hear you. Please allow microphone access in your browser settings."

/-- Welcome line spoken and shown by startCall. -/
def welcomeMsg : String :=
  "Hello! I\x27m Musab AI, your Irish immigration assistant. How can I help you today?"

/-- The tail of VoiceCallSystem.startCall after the microphone check
(src/voice-call.js lines 425-457): if the socket is not connected, append
a waiting message and schedule a retry of startCall after 2000 ms, leaving
every call flag untouched; otherwise activate the call, record the start
timestamp, start the timer interval, post the welcome message, and
schedule speaking it when autoSpeak is on. -/
def startCallAfterMic (s : VCState) (es : List Effect) (now : Int) : VCState × List Effect :=
  if !s.isConnected then
    (addMessage s ("assistant") ("Connecting to server... Please wait."),
     es ++ [Effect.scheduleRetryStartCall 2000])
  else
    let s1 := { s with isCallActive := true, callStartTime := some now, timerInterval := true }
    let s2 := addMessage s1 ("assistant") welcomeMsg
    (s2, es ++ [Effect.updateStatus ("Call active") ("active")] ++
         (if s.voiceSettings.autoSpeak then [Effect.scheduleSpeak welcomeMsg 500] else []) ++
         [Effect.log ("✅ Call started")])

/-- VoiceCallSystem.startCall (src/voice-call.js lines 415-458) together
with the awaited requestMicrophonePermission (lines 315-348).  The
nondeterministic outcomes of the browser are passed explicitly:
permGranted is the getUserMedia result and newStream the granted stream.
If a mediaStream is already held, no permission request is made.  On a
grant, setupAudioVisualization opens an audio context when the visualizer
canvas exists (the first draw call returns at once because isCallActive
is still false, so no animation-frame id is stored yet). -/
def startCall (s : VCState) (permGranted : Bool) (newStream : List Track) (now : Int) :
    VCState × List Effect :=
  let e0 : List Effect := [Effect.log ("📞 Starting call...")]
  match s.mediaStream with
  | none =>
    let e1 := e0 ++ [Effect.showModal ("permissionModal"),
                     Effect.log ("🎤 Requesting microphone permission..."),
                     Effect.requestMicPermission]
    if permGranted then
      let s1 := { s with mediaStream := some newStream,
                         audioContextOpen := if s.canvasPresent then true else s.audioContextOpen }
      startCallAfterMic s1
        (e1 ++ [Effect.updateMicStatus ("Connected") true,
                Effect.log ("✅ Microphone access granted")]) now
    else
      (addMessage s ("assistant") micDeniedMsg,
       e1 ++ [Effect.updateMicStatus ("Permission denied") false])
  | some _ => startCallAfterMic s e0 now

/-- VoiceCallSystem.startRecording (src/voice-call.js lines 568-603): the
push-to-talk press handler.  Guard: inactive call, muted, held or already
recording is a plain early return.  When recognition.start() throws
InvalidStateError because the recognizer is already running (modelled by
isRecognizing), it stops the recognizer and schedules one retry after
100 ms instead of starting a second concurrent turn. -/
def startRecording (s : VCState) : VCState × List Effect :=
  if !s.isCallActive || s.isMuted || s.isOnHold || s.isRecording then
    (s, [Effect.log ("⚠️ Cannot start recording")])
  else if !s.recognitionAvailable then
    (addMessage s ("assistant")
      ("Speech recognition not available in this browser. Try Chrome or Edge."), [])
  else
    let s1 := { s with isRecording := true }
    let e1 : List Effect := [Effect.log ("🎤 Starting recording..."), Effect.showRecordingUI]
    if s.isRecognizing then
      (s1, e1 ++ [Effect.stopRecognition, Effect.scheduleRecognitionRestart 100])
    else
      (s1, e1 ++ [Effect.startRecognition])

/-- Iterating startCall on the state it returns, as the setTimeout retry
in startCall does while the world (permission outcome, stream, clock,
connectivity) stays fixed. -/
def startCallIter : Nat → VCState → Bool → List Track → Int → VCState
  | 0, s, _, _, _ => s
  | n + 1, s, pg, ns, now => startCallIter n (startCall s pg ns now).1 pg ns now

theorem startCall_disconnected_step (s : VCState) (pg : Bool) (ns : List Track) (now : Int)
    (hact : s.isCallActive = false) (hconn : s.isConnected = false) :
    (startCall s pg ns now).1.isCallActive = false
    ∧ (startCall s pg ns now).1.isConnected = false := by
  cases hms : s.mediaStream <;> cases pg <;>
    simp [startCall, startCallAfterMic, addMessage, hms, hconn, hact]

/-- C2: at most one media stream and at most one recognition turn.
startCall performs no microphone acquisition when a stream is already
held (and the held stream is unchanged), and startRecording invoked while
isRecording is true returns having only logged, with the state unchanged
and no recognition start and nothing queued. -/
theorem c2_single_stream_single_turn (s : VCState) (pg : Bool) (ns : List Track) (now : Int) :
    (s.mediaStream.isSome = true →
      Effect.requestMicPermission ∉ (startCall s pg ns now).2
      ∧ (startCall s pg ns now).1.mediaStream = s.mediaStream)
    ∧ (s.isRecording = true →
      startRecording s = (s, [Effect.log ("⚠️ Cannot start recording")])
      ∧ Effect.startRecognition ∉ (startRecording s).2) := by
  constructor
  · intro hsome
    cases hms : s.mediaStream with
    | none => rw [hms] at hsome; simp [Option.isSome] at hsome
    | some ts =>
      constructor <;>
        · simp only [startCall, hms, startCallAfterMic]
          cases hconn : s.isConnected <;>
            cases hauto : s.voiceSettings.autoSpeak <;>
              simp [addMessage, hconn, hauto, hms]
  · intro hrec
    constructor <;> simp [startRecording, hrec]

/-- A concrete active call state currently recording. -/
def recordingState : VCState := { activeCallState with isRecording := true }

theorem c2_single_stream_single_turn_witness :
    (recordingState.mediaStream.isSome = true →
      Effect.requestMicPermission ∉ (startCall recordingState true [] 0).2
      ∧ (startCall recordingState true [] 0).1.mediaStream = recordingState.mediaStream)
    ∧ (recordingState.isRecording = true →
      startRecording recordingState =
        (recordingState, [Effect.log ("⚠️ Cannot start recording")])
      ∧ Effect.startRecognition ∉ (startRecording recordingState).2) :=
  c2_single_stream_single_turn recordingState true [] 0

/-- C3: pressing push-to-talk while the call is inactive, or muted, or on
hold, or already recording, is a no-op: startRecording only logs, changes
no state field, and starts no recognition turn (the function is total, so
no exception escapes). -/
theorem c3_pushToTalk_noop (s : VCState)
    (h : s.isCallActive = false ∨ s.isMuted = true ∨ s.isOnHold = true ∨ s.isRecording = true) :
    startRecording s = (s, [Effect.log ("⚠️ Cannot start recording")])
    ∧ Effect.startRecognition ∉ (startRecording s).2 := by
  rcases h with h | h | h | h <;> constructor <;> simp [startRecording, h]

/-- A concrete active call state currently on hold. -/
def onHoldState : VCState := { activeCallState with isMuted := false, isOnHold := true }

theorem c3_pushToTalk_noop_witness :
    startRecording onHoldState =
      (onHoldState, [Effect.log ("⚠️ Cannot start recording")])
    ∧ Effect.startRecognition ∉ (startRecording onHoldState).2 :=
  c3_pushToTalk_noop onHoldState (Or.inr (Or.inr (Or.inl rfl)))

/-- C6: a startCall attempt while the transport is not connected does not
activate the call and does not fail: it appends a waiting message,
schedules a retry of startCall after the fixed 2000 ms delay (whenever the
attempt reaches the connectivity check, i.e. a stream is held or
permission is granted), and the call-active flag stays false under any
number of retries while the transport remains disconnected. -/
theorem c6_startCall_disconnected_defers (s : VCState) (pg : Bool) (ns : List Track) (now : Int)
    (hact : s.isCallActive = false) (hconn : s.isConnected = false) :
    (startCall s pg ns now).1.isCallActive = false
    ∧ ((s.mediaStream.isSome = true ∨ pg = true) →
        Effect.scheduleRetryStartCall 2000 ∈ (startCall s pg ns now).2)
    ∧ (∀ n : Nat, (startCallIter n s pg ns now).isCallActive = false) := by
  refine ⟨(startCall_disconnected_step s pg ns now hact hconn).1, ?_, ?_⟩
  · intro hreach
    cases hms : s.mediaStream with
    | none =>
      rcases hreach with hsome | hpg
      · rw [hms] at hsome; simp [Option.isSome] at hsome
      · simp [startCall, hms, hpg, startCallAfterMic, hconn, addMessage]
    | some ts => simp [startCall, hms, startCallAfterMic, hconn, addMessage]
  · intro n
    induction n generalizing s with
    | zero => exact hact
    | succ k ih =>
      have hstep := startCall_disconnected_step s pg ns now hact hconn
      exact ih (startCall s pg ns now).1 hstep.1 hstep.2

/-- A concrete pre-call state holding a stream while the socket is down. -/
def disconnectedState : VCState :=
  { idleState with mediaStream := some [⟨1, true⟩], isConnected := false }

theorem c6_startCall_disconnected_defers_witness :
    (startCall disconnectedState true [] 0).1.isCallActive = false
    ∧ ((disconnectedState.mediaStream.isSome = true ∨ (true : Bool) = true) →
        Effect.scheduleRetryStartCall 2000 ∈ (startCall disconnectedState true [] 0).2)
    ∧ (∀ n : Nat, (startCallIter n disconnectedState true [] 0).isCallActive = false) :=
  c6_startCall_disconnected_defers disconnectedState true [] 0 rfl rfl

/-- VoiceCallSystem.stopRecordingUI (src/voice-call.js lines 617-621):
clears isRecording and dismisses the recording UI. -/
def stopRecordingUI (s : VCState) : VCState × List Effect :=
  ({ s with isRecording := false }, [Effect.hideRecordingUI])

/-- The recognition.onerror handler installed by setupSpeechRecognition
(src/voice-call.js lines 285-298): logs the error; for
not-allowed / permission-denied updates the mic status and re-shows the
permission modal; for no-speech only logs; for network appends an
assistant message; and in every case ends by calling stopRecordingUI. -/
def onRecognitionError (s : VCState) (err : String) : VCState × List Effect :=
  let e0 : List Effect := [Effect.log ("❌ Speech recognition error: " ++ err)]
  let p1 : VCState × List Effect :=
    if err == "not-allowed" || err == "permission-denied" then
      (s, [Effect.updateMicStatus ("Permission denied") false,
           Effect.showModal ("permissionModal")])
    else if err == "no-speech" then
      (s, [Effect.log ("⚠️ No speech detected")])
    else if err == "network" then
      (addMessage s ("assistant") ("Network error. Please check your connection."), [])
    else (s, [])
  let p2 := stopRecordingUI p1.1
  (p2.1, e0 ++ p1.2 ++ p2.2)

/-- Counterexample to C4 as stated: in a state that is recording, a
no-speech recognition error does change a call-state field — the handler
unconditionally calls stopRecordingUI, which resets isRecording from true
to false. -/
theorem c4_noSpeech_counterexample :
    (onRecognitionError recordingState ("no-speech")).1.isRecording ≠
      recordingState.isRecording := by
  decide

/-- C4 (amended): a no-speech recognition error is logged and otherwise
ignored — no message is appended, no modal is shown, and every call-state
field except the recording flag is unchanged; the recording flag is reset
to false because the handler ends every error path with stopRecordingUI. -/
theorem c4_noSpeech_logged_ignored (s : VCState) :
    (onRecognitionError s ("no-speech")).1 = { s with isRecording := false }
    ∧ (onRecognitionError s ("no-speech")).1.messageHistory = s.messageHistory
    ∧ (onRecognitionError s ("no-speech")).2 =
        [Effect.log ("❌ Speech recognition error: no-speech"),
         Effect.log ("⚠️ No speech detected"),
         Effect.hideRecordingUI] := by
  refine ⟨rfl, rfl, rfl⟩

/-- The loading placeholder bubble markup appended while awaiting the
backend (its className is the extra argument 'loading' in the source). -/
def loadingBubble : String :=
  "<div class=\"loading-dots\"><span></span><span></span><span></span></div>"

/-- VoiceCallSystem.handleSpeechInput (src/voice-call.js lines 625-656):
an empty or all-whitespace transcript is logged and dropped; otherwise the
user message is appended and, when the socket is present and connected,
the utterance is emitted over the WebSocket and a loading placeholder is
appended, else a not-connected assistant message is appended. -/
def handleSpeechInput (s : VCState) (text : String) : VCState × List Effect :=
  if text == "" || jsTrim text == "" then
    (s, [Effect.log ("⚠️ Empty speech input")])
  else
    let s1 := addMessage s ("user") text
    if s1.socketPresent && s1.isConnected then
      (addMessage s1 ("assistant") loadingBubble,
       [Effect.log ("💬 Processing speech input: " ++ text),
        Effect.emitVoiceInput text,
        Effect.log ("📤 Sent to server")])
    else
      (addMessage s1 ("assistant") ("Not connected to server. Please refresh the page."),
       [Effect.log ("💬 Processing speech input: " ++ text),
        Effect.log ("❌ Socket not connected")])

/-- C10: a finalized transcript that is empty or all whitespace is
silently discarded by handleSpeechInput: the state (in particular the
message history) is unchanged, nothing is emitted over the transport, and
no placeholder or error bubble is appended — the only action is a log. -/
theorem c10_blank_transcript_dropped (s : VCState) (text : String)
    (h : jsTrim text = "") :
    handleSpeechInput s text = (s, [Effect.log ("⚠️ Empty speech input")])
    ∧ (handleSpeechInput s text).1.messageHistory = s.messageHistory
    ∧ Effect.emitVoiceInput text ∉ (handleSpeechInput s text).2 := by
    simp [handleSpeechInput, h]

theorem c10_blank_transcript_dropped_witness :
    handleSpeechInput activeCallState ("  ") =
      (activeCallState, [Effect.log ("⚠️ Empty speech input")])
    ∧ (handleSpeechInput activeCallState ("  ")).1.messageHistory =
        activeCallState.messageHistory
    ∧ Effect.emitVoiceInput ("  ") ∉ (handleSpeechInput activeCallState ("  ")).2 :=
  c10_blank_transcript_dropped activeCallState ("  ") (by decide)

/-- Scan past the first closing angle bracket, as the regex piece matching
everything up to the tag end does. -/
def dropThroughGt : List Char → Option (List Char)
  | [] => none
  | c :: cs => if c = '>' then some cs else dropThroughGt cs

/-- Remove every HTML tag, i.e. each maximal run from a lt sign through
the next gt sign (a lt sign with no closing gt sign is kept), as the
global tag-removal replace in speak does.  fuel bounds the recursion and
is always given as the input length, which the scan never exceeds. -/
def stripHtmlAux : Nat → List Char → List Char
  | 0, l => l
  | _ + 1, [] => []
  | fuel + 1, c :: cs =>
    if c = '<' then
      match dropThroughGt cs with
      | some cs2 => stripHtmlAux fuel cs2
      | none => c :: stripHtmlAux fuel cs
    else c :: stripHtmlAux fuel cs

def stripHtml (s : String) : String :=
  String.mk (stripHtmlAux s.toList.length s.toList)

/-- Remove every occurrence of a double asterisk, as the markdown-bold
removal replace in speak does. -/
def removeStarsAux : Nat → List Char → List Char
  | 0, l => l
  | _ + 1, [] => []
  | fuel + 1, '*' :: '*' :: cs => removeStarsAux fuel cs
  | fuel + 1, c :: cs => c :: removeStarsAux fuel cs

def removeStars (s : String) : String :=
  String.mk (removeStarsAux s.toList.length s.toList)

/-- The code-fence delimiter character (U+0060). -/
def fenceChar : Char := Char.ofNat 96

/-- Whether the list starts with a triple code fence; if so, return the
rest after it. -/
def dropFence3 : List Char → Option (List Char)
  | a :: b :: c :: rest =>
    if a = fenceChar ∧ b = fenceChar ∧ c = fenceChar then some rest else none
  | _ => none

/-- Find the next triple code fence and return what follows it. -/
def findCloseFence : List Char → Option (List Char)
  | [] => none
  | c :: cs =>
    match dropFence3 (c :: cs) with
    | some rest => some rest
    | none => findCloseFence cs

/-- Remove every fenced code block (a triple fence, lazily up to the next
triple fence), as the code-block removal replace in speak does; an
unclosed opening fence is kept. -/
def stripCodeAux : Nat → List Char → List Char
  | 0, l => l
  | _ + 1, [] => []
  | fuel + 1, c :: cs =>
    match dropFence3 (c :: cs) with
    | some rest =>
      match findCloseFence rest with
      | some rest2 => stripCodeAux fuel rest2
      | none => c :: stripCodeAux fuel cs
    | none => c :: stripCodeAux fuel cs

def stripCode (s : String) : String :=
  String.mk (stripCodeAux s.toList.length s.toList)

/-- The cleaning pipeline of VoiceCallSystem.speak (src/voice-call.js
lines 746-749): remove HTML tags, then markdown bold markers, then fenced
code blocks. -/
def cleanTextOf (text : String) : String := stripCode (removeStars (stripHtml text))

/-- VoiceCallSystem.speak (src/voice-call.js lines 736-787): when
synthesis is supported, first cancel whatever is queued or speaking
(synthesis.cancel() empties the utterance queue), then clean the text; an
all-whitespace cleaned text returns with nothing enqueued; otherwise one
new utterance is built (with the configured rate, pitch, volume, language
and preferred voice) and enqueued.  The utterance attribute plumbing and
voice selection do not touch VCState and are not modelled beyond the
spoken text. -/
def speak (s : VCState) (text : String) : VCState × List Effect :=
  if !s.ttsSupported then
    (s, [Effect.log ("❌ Text-to-speech not supported")])
  else
    let s0 := { s with synthQueue := [] }
    let c := cleanTextOf text
    if jsTrim c == "" then (s0, [Effect.cancelSynthesis])
    else
      ({ s0 with synthQueue := [c], currentUtterance := some c },
       [Effect.cancelSynthesis,
        Effect.log ("🔊 Speaking: " ++ String.mk (c.toList.take 50) ++ "..."),
        Effect.speakUtterance c])

/-- Folding speak over a list of texts: the state after a burst of
overlapping speak calls. -/
def speakSeq (s : VCState) (ts : List String) : VCState :=
  ts.foldl (fun a t => (speak a t).1) s

theorem speak_preserves_tts (s : VCState) (t : String) :
    (speak s t).1.ttsSupported = s.ttsSupported := by
  by_cases h : s.ttsSupported = true <;>
    by_cases h2 : jsTrim (cleanTextOf t) == "" <;>
      simp_all [speak]

theorem speakSeq_preserves_tts (s : VCState) (ts : List String) :
    (speakSeq s ts).ttsSupported = s.ttsSupported := by
  induction ts generalizing s with
  | nil => rfl
  | cons t ts ih =>
    show (speakSeq (speak s t).1 ts).ttsSupported = s.ttsSupported
    rw [ih, speak_preserves_tts]

/-- C5: when synthesis is supported, every speak call cancels any
in-progress utterance first (the first effect is the cancel, and the
queue is emptied before any enqueue), leaves at most one utterance
outstanding, and after any burst of overlapping speak calls the only
possibly-outstanding utterance is the cleaned text of the latest call. -/
theorem c5_speak_supersedes (s : VCState) (t : String) (ts : List String)
    (h : s.ttsSupported = true) :
    (speak s t).2.head? = some Effect.cancelSynthesis
    ∧ (speak s t).1.synthQueue.length ≤ 1
    ∧ (speakSeq s (ts ++ [t])).synthQueue.length ≤ 1
    ∧ (∀ u ∈ (speakSeq s (ts ++ [t])).synthQueue, u = cleanTextOf t) := by
  have hspeak : ∀ s' : VCState, s'.ttsSupported = true →
      (speak s' t).2.head? = some Effect.cancelSynthesis
      ∧ (speak s' t).1.synthQueue.length ≤ 1
      ∧ (∀ u ∈ (speak s' t).1.synthQueue, u = cleanTextOf t) := by
    intro s' h'
    by_cases hc : jsTrim (cleanTextOf t) == "" <;> simp_all [speak]
  have hlast : speakSeq s (ts ++ [t]) = (speak (speakSeq s ts) t).1 := by
    simp [speakSeq, List.foldl_append]
  have htts : (speakSeq s ts).ttsSupported = true := by
    rw [speakSeq_preserves_tts]; exact h
  refine ⟨(hspeak s h).1, (hspeak s h).2.1, ?_, ?_⟩
  · rw [hlast]; exact (hspeak _ htts).2.1
  · rw [hlast]; exact (hspeak _ htts).2.2

theorem c5_speak_supersedes_witness :
    (speak activeCallState ("first")).2.head? = some Effect.cancelSynthesis
    ∧ (speak activeCallState ("first")).1.synthQueue.length ≤ 1
    ∧ (speakSeq activeCallState (["first", "second"] ++ ["third"])).synthQueue.length ≤ 1
    ∧ (∀ u ∈ (speakSeq activeCallState (["first", "second"] ++ ["third"])).synthQueue,
        u = cleanTextOf ("third")) := by
  have h := c5_speak_supersedes activeCallState ("third") ["first", "second"] rfl
  have h1 : (speak activeCallState ("first")).2.head? = some Effect.cancelSynthesis := by
    decide
  have h2 : (speak activeCallState ("first")).1.synthQueue.length ≤ 1 := by decide
  exact ⟨h1, h2, h.2.2.1, h.2.2.2⟩

/-- Model of String.prototype.padStart(2, zeroDigit): left-pad with zero
digits up to length 2. -/
def padStart2 (s : String) : String :=
  if s.length < 2 then String.mk (List.replicate (2 - s.length) '0') ++ s else s

/-- The MM:SS text computed by one tick of the interval installed by
VoiceCallSystem.startTimer (src/voice-call.js lines 791-802): elapsed is
the difference of the current time and the stored start timestamp;
minutes is the floor of elapsed over 60000, seconds the floor of the
remainder over 1000 (JS Math.floor is fdiv, the JS remainder operator is
tmod); both are zero-padded to two digits. -/
def formatElapsed (elapsed : Int) : String :=
  let minutes := Int.fdiv elapsed 60000
  let seconds := Int.fdiv (Int.tmod elapsed 60000) 1000
  padStart2 (toString minutes) ++ ":" ++ padStart2 (toString seconds)

/-- One tick of the startTimer interval acting on the system state: the
tick returns at once when callStartTime is null (or the falsy 0), and
otherwise rewrites the timer display from the timestamp delta alone.  No
counter is kept anywhere: the tick closes only over callStartTime. -/
def timerTick (s : VCState) (now : Int) : VCState :=
  match s.callStartTime with
  | none => s
  | some start =>
    if start = 0 then s
    else { s with callTimerText := formatElapsed (now - start) }

/-- C9: while a call is active each timer tick recomputes the displayed
time as the zero-padded MM:SS rendering of the difference between the
current time and the stored start timestamp.  The display is a function
of that delta alone (two states with equal deltas render identically, so
the display is resilient to tick drift), the seconds component lies in
[0, 60), and the padding really is zero-padding to width two. -/
theorem c9_timer_recomputes_from_delta (s : VCState) (now start : Int)
    (hcs : s.callStartTime = some start) (h0 : start ≠ 0) :
    (timerTick s now).callTimerText = formatElapsed (now - start)
    ∧ (∀ (s2 : VCState) (now2 start2 : Int), s2.callStartTime = some start2 →
        start2 ≠ 0 → now - start = now2 - start2 →
        (timerTick s now).callTimerText = (timerTick s2 now2).callTimerText)
    ∧ (0 ≤ now - start →
        0 ≤ Int.fdiv (Int.tmod (now - start) 60000) 1000
        ∧ Int.fdiv (Int.tmod (now - start) 60000) 1000 < 60)
    ∧ (∀ str : String, str.length ≤ 2 → (padStart2 str).length = 2) := by
  have htick : ∀ (s' : VCState) (now' start' : Int), s'.callStartTime = some start' →
      start' ≠ 0 → (timerTick s' now').callTimerText = formatElapsed (now' - start') := by
    intro s' now' start' hcs' h0'
    simp [timerTick, hcs', h0']
  refine ⟨htick s now start hcs h0, ?_, ?_, ?_⟩
  · intro s2 now2 start2 hcs2 h02 hdelta
    rw [htick s now start hcs h0, htick s2 now2 start2 hcs2 h02, hdelta]
  · intro hd
    have hm0 : (0 : Int) ≤ Int.tmod (now - start) 60000 := Int.tmod_nonneg _ hd
    have hm1 : Int.tmod (now - start) 60000 < 60000 :=
      Int.tmod_lt_of_pos _ (by omega)
    have hq : Int.fdiv (Int.tmod (now - start) 60000) 1000 =
        Int.tmod (now - start) 60000 / 1000 :=
      Int.fdiv_eq_ediv _ (by omega)
    constructor <;> rw [hq] <;> omega
  · intro str hlen
    by_cases h2 : str.length < 2
    · have : (String.mk (List.replicate (2 - str.length) '0')).length = 2 - str.length := by
        show (List.replicate (2 - str.length) '0').length = 2 - str.length
        exact List.length_replicate _ _
      simp only [padStart2, if_pos h2, String.length_append, this]
      omega
    · simp only [padStart2, if_neg h2]
      omega

/-- A concrete in-call state whose call started at timestamp 5000. -/
def timedCallState : VCState := { activeCallState with callStartTime := some 5000 }

theorem c9_timer_recomputes_from_delta_witness :
    (timerTick timedCallState 65000).callTimerText = formatElapsed (65000 - 5000)
    ∧ (∀ (s2 : VCState) (now2 start2 : Int), s2.callStartTime = some start2 →
        start2 ≠ 0 → (65000 : Int) - 5000 = now2 - start2 →
        (timerTick timedCallState 65000).callTimerText = (timerTick s2 now2).callTimerText)
    ∧ ((0 : Int) ≤ 65000 - 5000 →
        0 ≤ Int.fdiv (Int.tmod ((65000 : Int) - 5000) 60000) 1000
        ∧ Int.fdiv (Int.tmod ((65000 : Int) - 5000) 60000) 1000 < 60)
    ∧ (∀ str : String, str.length ≤ 2 → (padStart2 str).length = 2) :=
  c9_timer_recomputes_from_delta timedCallState 65000 5000 rfl (by decide)

/-- The backend's answer to the ingestion POST, or the absence of one:
a 2xx response carrying nodes_added, a non-2xx response carrying an error
text, or a thrown network error. -/
inductive ServerResponse where
  | ok (nodesAdded : Nat)
  | serverError (errText : String)
  | networkFailure (msg : String)
deriving Repr, DecidableEq

/-- What one run of the addDataForm submit handler did. -/
structure AddDataOutcome where
  /-- the showMessage call made, as (text, type). -/
  message : Option (String × String)
  /-- whether fetch(/api/add_data) was invoked. -/
  networkCalled : Bool
  /-- whether the textarea was cleared. -/
  inputCleared : Bool
  /-- the submit button's disabled property when the handler finished. -/
  submitDisabledFinal : Bool
deriving Repr, DecidableEq

def emptyInputMsg : String := "Please enter some document content."

def tooShortMsg : String := "Document is too short. Please provide at least 50 characters."

/-- The addDataForm submit handler (src/add_data.js lines 5-67).  The
trimmed input is validated before any network activity: empty and
too-short inputs show an error and return while the button was never
disabled.  Past validation the button is disabled, the POST is made, and
the three outcomes (2xx, non-2xx, thrown error) each show their message;
the finally block re-enables the button on every one of those paths. -/
def addDataSubmit (input : String) (resp : ServerResponse) : AddDataOutcome :=
  let data := jsTrim input
  if data == "" then
    { message := some (emptyInputMsg, "error"), networkCalled := false,
      inputCleared := false, submitDisabledFinal := false }
  else if jsLength data < 50 then
    { message := some (tooShortMsg, "error"), networkCalled := false,
      inputCleared := false, submitDisabledFinal := false }
  else
    match resp with
    | ServerResponse.ok n =>
      { message := some ("✅ Success! Added " ++ toString n ++
          " document chunk(s) to knowledge base.", "success"),
        networkCalled := true, inputCleared := true, submitDisabledFinal := false }
    | ServerResponse.serverError e =>
      { message := some ("❌ Error: " ++ e, "error"),
        networkCalled := true, inputCleared := false, submitDisabledFinal := false }
    | ServerResponse.networkFailure m =>
      { message := some ("❌ Network Error: " ++ m, "error"),
        networkCalled := true, inputCleared := false, submitDisabledFinal := false }

/-- C7: a submission whose trimmed input is non-empty but shorter than
the 50-character minimum is rejected locally: the too-short error message
is shown and no network request is issued, whatever the backend would
have answered.  The input "data" (4 characters) is such an input. -/
theorem c7_too_short_rejected_locally (input : String)
    (h1 : jsTrim input ≠ "") (h2 : jsLength (jsTrim input) < 50) :
    ∀ resp : ServerResponse,
      (addDataSubmit input resp).message = some (tooShortMsg, "error")
      ∧ (addDataSubmit input resp).networkCalled = false := by
  intro resp
  constructor <;> simp [addDataSubmit, h1, h2]

theorem c7_too_short_rejected_locally_witness :
    (addDataSubmit ("data") (ServerResponse.ok 3)).message = some (tooShortMsg, "error")
    ∧ (addDataSubmit ("data") (ServerResponse.ok 3)).networkCalled = false :=
  c7_too_short_rejected_locally ("data") (by decide) (by decide) (ServerResponse.ok 3)

/-- C8: a submission that passes local validation always finds the submit
button re-enabled when the handler finishes — on the success path, the
backend-error path and the thrown-network-error path alike — and exactly
one network request was made. -/
theorem c8_button_always_reenabled (input : String)
    (h1 : jsTrim input ≠ "") (h2 : 50 ≤ jsLength (jsTrim input)) :
    ∀ resp : ServerResponse,
      (addDataSubmit input resp).submitDisabledFinal = false
      ∧ (addDataSubmit input resp).networkCalled = true := by
  intro resp
  have h2' : ¬ jsLength (jsTrim input) < 50 := by omega
  cases resp <;> constructor <;> simp [addDataSubmit, h1, h2']

/-- A 60-character document text. -/
def sixtyChars : String := String.mk (List.replicate 60 'a')

theorem c8_button_always_reenabled_witness :
    (addDataSubmit sixtyChars (ServerResponse.networkFailure ("offline"))).submitDisabledFinal
        = false
    ∧ (addDataSubmit sixtyChars (ServerResponse.networkFailure ("offline"))).networkCalled
        = true :=
  c8_button_always_reenabled sixtyChars (by decide) (by decide)
    (ServerResponse.networkFailure ("offline"))
